/-
Verification of the Cartoon bot (src/bot.py).

Shallow embedding of the episode/title parser (`extract_episode_info`,
`clean_title`, `format_duration`, `create_caption`), the caption built
inline by the forward path of `message_handler`, the YouTube download
pipeline loop of `message_handler` (slicing, per-item counters, stop
flag, publishes), the forward-session state machine, and the
`current_operation` registry mutation performed by `callback_handler`.

Python regular expressions are modelled by hand-written scanners over
`List Char` that reproduce `re.search` / `re.sub` semantics (leftmost
match, greedy quantifiers, word boundaries) for the specific patterns
appearing in the source.  The model is faithful for ASCII input: Python's
`\w`, `\s`, `str.upper` additionally handle non-ASCII classes, which the
concrete inputs used below never contain.
-/
import Mathlib

namespace Cartoon

/-! ### Character classes (Python `re` semantics, ASCII scope) -/

/-- Python `\s` (ASCII part): space, tab, newline, carriage return,
vertical tab, form feed. -/
def isSpaceCh (c : Char) : Bool :=
  c = ' ' || c = '\t' || c = '\n' || c = '\r' || c = '\x0b' || c = '\x0c'

/-- Python `\d` (ASCII part). -/
def isDigitCh (c : Char) : Bool := c.isDigit

/-- Python `\w` (ASCII part): letters, digits, underscore. -/
def isWordCh (c : Char) : Bool := c.isAlphanum || c = '_'

def isWordOpt : Option Char → Bool
  | none => false
  | some c => isWordCh c

/-- Numeric value of a digit run, `int(...)` on the matched group. -/
def digitsToNat (ds : List Char) : Nat :=
  ds.foldl (fun a c => a * 10 + (c.toNat - 48)) 0

/-- Python `f"{n:02d}"`: zero-pad to a minimum width of two digits. -/
def pad2 (n : Nat) : String :=
  if n < 10 then "0" ++ toString n else toString n

/-- `title.upper()` (ASCII scope), as the character list the scanners run on. -/
def upperList (s : String) : List Char := s.data.map Char.toUpper

/-- Case-insensitive literal: consume `p` (given uppercased) from the input,
returning the rest. -/
def litCI : List Char → List Char → Option (List Char)
  | [], l => some l
  | _ :: _, [] => none
  | p :: ps, c :: cs => if c.toUpper = p then litCI ps cs else none

/-! ### `extract_episode_info` pattern matchers (src/bot.py lines 90-104)

Each `ma*` function decides whether its pattern matches *at the current
position* and returns the numeric groups; `searchP` supplies `re.search`'s
leftmost-position scan.  The input list is already uppercased, matching
`title_upper`. -/

/-- `re.search` position scan: try the matcher at each successive start
position, leftmost match wins. -/
def searchP {α : Type} (m : List Char → Option α) : List Char → Option α
  | [] => none
  | c :: rest =>
    match m (c :: rest) with
    | some v => some v
    | none => searchP m rest

/-- Pattern `S(\d+)\s*E(\d+)`. -/
def maSE : List Char → Option (Nat × Nat)
  | [] => none
  | c :: rest =>
    if c.toUpper = 'S' then
      let d := rest.takeWhile isDigitCh
      if d = [] then none
      else
        match (rest.dropWhile isDigitCh).dropWhile isSpaceCh with
        | [] => none
        | e :: r2 =>
          if e.toUpper = 'E' then
            let d2 := r2.takeWhile isDigitCh
            if d2 = [] then none else some (digitsToNat d, digitsToNat d2)
          else none
    else none

/-- Tail `EP(?:ISODE)?\s*(\d+)` of pattern 2, tried at one position.
The greedy optional group `(?:ISODE)?` backtracks to the bare `EP`
alternative when the longer spelling does not let the rest match. -/
def epTail (l : List Char) : Option Nat :=
  match litCI ['E', 'P'] l with
  | none => none
  | some r =>
    let tryFrom : List Char → Option Nat := fun r2 =>
      let r3 := r2.dropWhile isSpaceCh
      let d := r3.takeWhile isDigitCh
      if d = [] then none else some (digitsToNat d)
    match litCI ['I', 'S', 'O', 'D', 'E'] r with
    | some r2 =>
      match tryFrom r2 with
      | some v => some v
      | none => tryFrom r
    | none => tryFrom r

/-- The lazy gap `.*?` before `EP(?:ISODE)?\s*(\d+)`: take the earliest
position at which the tail matches; `.` does not cross a newline. -/
def gapScan : List Char → Option Nat
  | [] => none
  | c :: rest =>
    match epTail (c :: rest) with
    | some v => some v
    | none => if c = '\n' then none else gapScan rest

/-- Pattern `SEASON\s*(\d+).*?EP(?:ISODE)?\s*(\d+)`. -/
def maSeasonEp (l : List Char) : Option (Nat × Nat) :=
  match litCI ['S', 'E', 'A', 'S', 'O', 'N'] l with
  | none => none
  | some r =>
    let r2 := r.dropWhile isSpaceCh
    let d := r2.takeWhile isDigitCh
    if d = [] then none
    else
      match gapScan (r2.dropWhile isDigitCh) with
      | some e => some (digitsToNat d, e)
      | none => none

/-- Pattern `(\d+)X(\d+)`. -/
def maX (l : List Char) : Option (Nat × Nat) :=
  let d := l.takeWhile isDigitCh
  if d = [] then none
  else
    match l.dropWhile isDigitCh with
    | x :: r =>
      if x.toUpper = 'X' then
        let d2 := r.takeWhile isDigitCh
        if d2 = [] then none else some (digitsToNat d, digitsToNat d2)
      else none
    | [] => none

/-- Pattern `EP\.?\s*(\d+)` (greedy optional dot, with backtracking). -/
def maEP (l : List Char) : Option Nat :=
  match litCI ['E', 'P'] l with
  | none => none
  | some r =>
    let tryFrom : List Char → Option Nat := fun r2 =>
      let r3 := r2.dropWhile isSpaceCh
      let d := r3.takeWhile isDigitCh
      if d = [] then none else some (digitsToNat d)
    match r with
    | '.' :: r1 =>
      match tryFrom r1 with
      | some v => some v
      | none => tryFrom r
    | _ => tryFrom r

/-- Pattern `EPISODE\s*(\d+)`. -/
def maEPISODE (l : List Char) : Option Nat :=
  match litCI ['E', 'P', 'I', 'S', 'O', 'D', 'E'] l with
  | none => none
  | some r =>
    let r2 := r.dropWhile isSpaceCh
    let d := r2.takeWhile isDigitCh
    if d = [] then none else some (digitsToNat d)

/-- Pattern `E(\d+)`. -/
def maE : List Char → Option Nat
  | [] => none
  | c :: rest =>
    if c.toUpper = 'E' then
      let d := rest.takeWhile isDigitCh
      if d = [] then none else some (digitsToNat d)
    else none

/-- Pattern `\[(\d+)\]`. -/
def maBracket : List Char → Option Nat
  | '[' :: rest =>
    let d := rest.takeWhile isDigitCh
    if d = [] then none
    else
      match rest.dropWhile isDigitCh with
      | ']' :: _ => some (digitsToNat d)
      | _ => none
  | _ => none

/-- Pattern `#(\d+)`. -/
def maHash : List Char → Option Nat
  | '#' :: rest =>
    let d := rest.takeWhile isDigitCh
    if d = [] then none else some (digitsToNat d)
  | _ => none

/-- Pattern `-\s*(\d+)\s*-`. -/
def maDashNumDash : List Char → Option Nat
  | '-' :: rest =>
    let r1 := rest.dropWhile isSpaceCh
    let d := r1.takeWhile isDigitCh
    if d = [] then none
    else
      match (r1.dropWhile isDigitCh).dropWhile isSpaceCh with
      | '-' :: _ => some (digitsToNat d)
      | _ => none
  | _ => none

/-- Pattern `^\s*(\d+)\s*[-.]`, anchored at the start of the string. -/
def maLeadingNum (l : List Char) : Option Nat :=
  let r1 := l.dropWhile isSpaceCh
  let d := r1.takeWhile isDigitCh
  if d = [] then none
  else
    match (r1.dropWhile isDigitCh).dropWhile isSpaceCh with
    | '-' :: _ => some (digitsToNat d)
    | '.' :: _ => some (digitsToNat d)
    | _ => none

/-- Fallback `\b(\d+)\b` search (src/bot.py line 115): the first maximal
digit run flanked by word boundaries.  `prev` is the character before the
current scan position (`none` at the start of the string). -/
def boundaryAfter (rest : List Char) : Bool :=
  match rest.dropWhile isDigitCh with
  | [] => true
  | d :: _ => !isWordCh d

def bare_search (prev : Option Char) : List Char → Option Nat
  | [] => none
  | c :: rest =>
    if !isWordOpt prev && isDigitCh c && boundaryAfter rest then
      some (digitsToNat (c :: rest.takeWhile isDigitCh))
    else bare_search (some c) rest

/-- All word-bounded digit runs of the title, in order of occurrence (used
to state the fallback claim; `bare_search` returns the head, see
`bare_search_eq_head`). -/
def bare_all (prev : Option Char) : List Char → List Nat
  | [] => []
  | c :: rest =>
    if !isWordOpt prev && isDigitCh c && boundaryAfter rest then
      digitsToNat (c :: rest.takeWhile isDigitCh) :: bare_all (some c) rest
    else bare_all (some c) rest

/-- Formatter `f"S{season:02d}E{episode:02d}"` shared by the three
Season+Episode rules. -/
def fmtSE (s e : Nat) : String := "S" ++ pad2 s ++ "E" ++ pad2 e

/-- The ordered pattern cascade of `extract_episode_info`
(src/bot.py lines 90-112): first rule that matches wins. -/
def runCascade (u : List Char) : Option (String × Nat × Nat) :=
  match searchP maSE u with
  | some (s, e) => some (fmtSE s e, s, e)
  | none =>
  match searchP maSeasonEp u with
  | some (s, e) => some (fmtSE s e, s, e)
  | none =>
  match searchP maX u with
  | some (s, e) => some (fmtSE s e, s, e)
  | none =>
  match searchP maEP u with
  | some e => some (pad2 e, 1, e)
  | none =>
  match searchP maEPISODE u with
  | some e => some (pad2 e, 1, e)
  | none =>
  match searchP maE u with
  | some e => some (pad2 e, 1, e)
  | none =>
  match searchP maBracket u with
  | some e => some (pad2 e, 1, e)
  | none =>
  match searchP maHash u with
  | some e => some (pad2 e, 1, e)
  | none =>
  match searchP maDashNumDash u with
  | some e => some (pad2 e, 1, e)
  | none =>
  match maLeadingNum u with
  | some e => some (pad2 e, 1, e)
  | none => none

/-- The first three (Season+Episode) rules of the cascade, in their
priority order; used to state claim C3. -/
def combined_first (u : List Char) : Option (Nat × Nat) :=
  match searchP maSE u with
  | some r => some r
  | none =>
  match searchP maSeasonEp u with
  | some r => some r
  | none => searchP maX u

/-- `extract_episode_info(title)` (src/bot.py lines 85-121): returns
`(ep_info, season, ep_num)`.  The pattern formatters never raise, so the
`try/except continue` around them is dead. -/
def extract_episode_info (title : String) : String × Nat × Nat :=
  let u := upperList title
  match runCascade u with
  | some r => r
  | none =>
    match bare_search none u with
    | some num => if 1 ≤ num ∧ num ≤ 999 then (pad2 num, 1, num) else ("01", 1, 1)
    | none => ("01", 1, 1)

/-- `format_duration(seconds)` (src/bot.py lines 124-133).  The Python
argument is a non-negative int here (video durations); `if seconds:` is
falsy exactly at 0. -/
def format_duration (seconds : Nat) : String :=
  if seconds ≠ 0 then
    let minutes := seconds / 60
    let hours := minutes / 60
    let mins := minutes % 60
    if hours > 0 then toString hours ++ "h " ++ toString mins ++ "m"
    else toString minutes ++ " min"
  else "Unknown"

/-! ### `clean_title` (src/bot.py lines 136-178)

Each deny-list pattern is applied as one full `re.sub(pattern, '', title,
flags=re.IGNORECASE)` pass.  A `mc*` matcher decides a match at the
current position and returns the number of characters consumed (always
at least 1); `subAll` supplies `re.sub`'s scan-and-replace-all loop. -/

/-- `re.sub(p, '', s)`: scan left to right, remove each leftmost
non-overlapping match, continue scanning after it.  (No pattern here can
match the empty string, so a returned consumption of 0 is treated as no
match.)  The `fuel` argument only makes the recursion structural — every
step consumes at least one character, so `fuel = l.length` in `subAll`
never runs out. -/
def subAllF (m : List Char → Option Nat) : Nat → List Char → List Char
  | 0, l => l
  | _, [] => []
  | fuel + 1, c :: rest =>
    match m (c :: rest) with
    | some (n + 1) => subAllF m fuel (rest.drop n)
    | _ => c :: subAllF m fuel rest

def subAll (m : List Char → Option Nat) (l : List Char) : List Char :=
  subAllF m l.length l

/-- Count-and-rest helpers for the length-returning matchers. -/
def spacesSplit (l : List Char) : Nat × List Char :=
  ((l.takeWhile isSpaceCh).length, l.dropWhile isSpaceCh)

def digitsSplit (l : List Char) : Nat × List Char :=
  ((l.takeWhile isDigitCh).length, l.dropWhile isDigitCh)

/-- Pattern `S\d+E\d+` (no space allowed, unlike the extract pattern). -/
def mcSE : List Char → Option Nat
  | [] => none
  | c :: rest =>
    if c.toUpper = 'S' then
      let (d, r1) := digitsSplit rest
      if d = 0 then none
      else
        match r1 with
        | e :: r2 =>
          if e.toUpper = 'E' then
            let (d2, _) := digitsSplit r2
            if d2 = 0 then none else some (1 + d + 1 + d2)
          else none
        | [] => none
    else none

/-- Pattern `Season\s*\d+\s*Episode\s*\d+`. -/
def mcSeasonEpisode (l : List Char) : Option Nat :=
  match litCI ['S', 'E', 'A', 'S', 'O', 'N'] l with
  | none => none
  | some r =>
    let (s1, r1) := spacesSplit r
    let (d1, r2) := digitsSplit r1
    if d1 = 0 then none
    else
      let (s2, r3) := spacesSplit r2
      match litCI ['E', 'P', 'I', 'S', 'O', 'D', 'E'] r3 with
      | none => none
      | some r4 =>
        let (s3, r5) := spacesSplit r4
        let (d2, _) := digitsSplit r5
        if d2 = 0 then none else some (6 + s1 + d1 + s2 + 7 + s3 + d2)

/-- Pattern `\d+x\d+`. -/
def mcX (l : List Char) : Option Nat :=
  let (d, r1) := digitsSplit l
  if d = 0 then none
  else
    match r1 with
    | x :: r2 =>
      if x.toUpper = 'X' then
        let (d2, _) := digitsSplit r2
        if d2 = 0 then none else some (d + 1 + d2)
      else none
    | [] => none

/-- Pattern `EP\.?\s*\d+` (greedy optional dot, with backtracking). -/
def mcEP (l : List Char) : Option Nat :=
  match litCI ['E', 'P'] l with
  | none => none
  | some r =>
    let tryFrom : List Char → Option Nat := fun r2 =>
      let (s, r3) := spacesSplit r2
      let (d, _) := digitsSplit r3
      if d = 0 then none else some (s + d)
    match r with
    | '.' :: r1 =>
      match tryFrom r1 with
      | some k => some (2 + 1 + k)
      | none =>
        match tryFrom r with
        | some k => some (2 + k)
        | none => none
    | _ =>
      match tryFrom r with
      | some k => some (2 + k)
      | none => none

/-- Pattern `EPISODE\s*\d+`. -/
def mcEPISODE (l : List Char) : Option Nat :=
  match litCI ['E', 'P', 'I', 'S', 'O', 'D', 'E'] l with
  | none => none
  | some r =>
    let (s, r1) := spacesSplit r
    let (d, _) := digitsSplit r1
    if d = 0 then none else some (7 + s + d)

/-- Pattern `E\d+`. -/
def mcE : List Char → Option Nat
  | [] => none
  | c :: rest =>
    if c.toUpper = 'E' then
      let (d, _) := digitsSplit rest
      if d = 0 then none else some (1 + d)
    else none

/-- Pattern `\[\d+\]`. -/
def mcBracket : List Char → Option Nat
  | '[' :: rest =>
    let (d, r1) := digitsSplit rest
    if d = 0 then none
    else
      match r1 with
      | ']' :: _ => some (1 + d + 1)
      | _ => none
  | _ => none

/-- Pattern `\(\d+\)`. -/
def mcParen : List Char → Option Nat
  | '(' :: rest =>
    let (d, r1) := digitsSplit rest
    if d = 0 then none
    else
      match r1 with
      | ')' :: _ => some (1 + d + 1)
      | _ => none
  | _ => none

/-- The alternatives of `\.(mp4|mkv|avi|mov|wmv|flv|webm|m4v|mpg|mpeg)$`,
in the source's order, uppercased. -/
def videoExts : List (List Char) :=
  [['M', 'P', '4'], ['M', 'K', 'V'], ['A', 'V', 'I'], ['M', 'O', 'V'],
   ['W', 'M', 'V'], ['F', 'L', 'V'], ['W', 'E', 'B', 'M'], ['M', '4', 'V'],
   ['M', 'P', 'G'], ['M', 'P', 'E', 'G']]

def tryExts : List (List Char) → List Char → Option Nat
  | [], _ => none
  | p :: ps, r =>
    match litCI p r with
    | some rest => if rest = [] then some p.length else tryExts ps r
    | none => tryExts ps r

/-- Pattern `\.(mp4|...|mpeg)$`: a dot, an extension, then end of string.
(Python's `$` also matches just before a final newline; the titles
considered here contain no trailing newline.) -/
def mcExt : List Char → Option Nat
  | '.' :: rest =>
    match tryExts videoExts rest with
    | some n => some (1 + n)
    | none => none
  | _ => none

/-- Pattern `-\s*\d+\s*-`. -/
def mcDashNumDash : List Char → Option Nat
  | '-' :: rest =>
    let (s1, r1) := spacesSplit rest
    let (d, r2) := digitsSplit r1
    if d = 0 then none
    else
      let (s2, r3) := spacesSplit r2
      match r3 with
      | '-' :: _ => some (1 + s1 + d + s2 + 1)
      | _ => none
  | _ => none

/-- Pattern `#\d+`. -/
def mcHash : List Char → Option Nat
  | '#' :: rest =>
    let (d, _) := digitsSplit rest
    if d = 0 then none else some (1 + d)
  | _ => none

/-- Pattern `^\s*\d+\s*[-.]`, anchored: a single removal at position 0. -/
def subLeadingNum (l : List Char) : List Char :=
  let (s1, r1) := spacesSplit l
  let (d, r2) := digitsSplit r1
  if d = 0 then l
  else
    let (s2, r3) := spacesSplit r2
    match r3 with
    | '-' :: _ => l.drop (s1 + d + s2 + 1)
    | '.' :: _ => l.drop (s1 + d + s2 + 1)
    | _ => l

/-- Case-insensitive literal pattern (`x264`, `WEB-DL`, `720p`, ...). -/
def mcLit (p : List Char) (l : List Char) : Option Nat :=
  match litCI p l with
  | some _ => some p.length
  | none => none

/-- `re.sub(r'\s+', ' ', title)`: collapse whitespace runs to one space.
`prevSpace` tracks whether the previous character was part of a run. -/
def collapseSpaces (prevSpace : Bool) : List Char → List Char
  | [] => []
  | c :: rest =>
    if isSpaceCh c then
      if prevSpace then collapseSpaces true rest
      else ' ' :: collapseSpaces true rest
    else c :: collapseSpaces false rest

/-- Strip characters satisfying `p` from both ends. -/
def stripEnds (p : Char → Bool) (l : List Char) : List Char :=
  ((l.dropWhile p).reverse.dropWhile p).reverse

/-- The class `[-.\s]` of `re.sub(r'^[-.\s]+|[-.\s]+$', '', title)`. -/
def isSepCh (c : Char) : Bool := c = '-' || c = '.' || isSpaceCh c

/-- `clean_title(title, remove_patterns=True)` (src/bot.py lines 136-178):
the deny-list passes in source order, then whitespace collapse + `strip()`,
separator stripping at both ends, and `.`/`_` replacement. -/
def clean_title (title : String) : String :=
  let l := title.data
  let l := subAll mcSE l
  let l := subAll mcSeasonEpisode l
  let l := subAll mcX l
  let l := subAll mcEP l
  let l := subAll mcEPISODE l
  let l := subAll mcE l
  let l := subAll mcBracket l
  let l := subAll mcParen l
  let l := subAll mcExt l
  let l := subAll mcDashNumDash l
  let l := subLeadingNum l
  let l := subAll mcHash l
  let l := subAll (mcLit ['X', '2', '6', '4']) l
  let l := subAll (mcLit ['X', '2', '6', '5']) l
  let l := subAll (mcLit ['A', 'A', 'C']) l
  let l := subAll (mcLit ['M', 'P', '3']) l
  let l := subAll (mcLit ['H', 'D', 'T', 'V']) l
  let l := subAll (mcLit ['W', 'E', 'B', '-', 'D', 'L']) l
  let l := subAll (mcLit ['W', 'E', 'B', 'R', 'I', 'P']) l
  let l := subAll (mcLit ['B', 'L', 'U', 'R', 'A', 'Y']) l
  let l := subAll (mcLit ['D', 'V', 'D', 'R', 'I', 'P']) l
  let l := subAll (mcLit ['4', '8', '0', 'P']) l
  let l := subAll (mcLit ['7', '2', '0', 'P']) l
  let l := subAll (mcLit ['1', '0', '8', '0', 'P']) l
  let l := subAll (mcLit ['2', '1', '6', '0', 'P']) l
  let l := subAll (mcLit ['4', 'K']) l
  let l := stripEnds isSpaceCh (collapseSpaces false l)
  let l := stripEnds isSepCh l
  let l := l.map fun c => if c = '.' ∨ c = '_' then ' ' else c
  String.mk l

/-! ### Caption builders -/

/-- The title text used by `create_caption` (src/bot.py lines 184-186):
`clean_title(title)`, falling back to `title[:50]` when the cleaned text
is empty (falsy) or shorter than 3 characters. -/
def caption_title_text (title : String) : String :=
  let c := clean_title title
  if c = "" ∨ c.length < 3 then String.mk (title.data.take 50) else c

/-- `create_caption(episode_num, title, series_name, duration, audio_lang,
season)` (src/bot.py lines 181-202).  `audio_lang=None` and the empty
string are both falsy in `if audio_lang:`. -/
def create_caption (episode_num : String) (title series_name duration : String)
    (audio_lang : Option String) (season : Nat) : String :=
  let ct := caption_title_text title
  let caption :=
    if season > 1 then
      "🎬 **Season " ++ toString season ++ " Episode " ++ episode_num ++ "**"
    else "🎬 **Episode " ++ episode_num ++ "**"
  let caption := caption ++ "\n📺 **Series:** " ++ series_name
  let caption := caption ++ "\n📝 **Title:** " ++ ct
  let caption := caption ++ "\n⏱ **Duration:** " ++ duration
  let caption :=
    match audio_lang with
    | some lang => if lang = "" then caption else caption ++ "\n🔊 **Audio:** " ++ lang
    | none => caption
  caption ++ "\n🎞 **Quality:** HD" ++ "\n\n#cartoon #episode"

/-- The caption assembled inline by the forward path of `message_handler`
(src/bot.py lines 1047-1070).  `ep_num` and `season` come from
`extract_episode_info(title)`; the title line uses `clean_title(title)`
with no length fallback; the duration line is emitted only when
`duration` is truthy (present and nonzero); `audio_lang` likewise. -/
def forward_caption (ep_num season : Nat) (series_name clean_title_text : String)
    (duration : Option Nat) (audio_lang : Option String) : String :=
  let caption :=
    if season > 1 then
      "🎬 **Season " ++ toString season ++ " Episode " ++ pad2 ep_num ++ "**"
    else "🎬 **Episode " ++ pad2 ep_num ++ "**"
  let caption := caption ++ "\n📺 **Series:** " ++ series_name
  let caption := caption ++ "\n📝 **Title:** " ++ clean_title_text
  let caption :=
    match duration with
    | some d => if d = 0 then caption else caption ++ "\n⏱ **Duration:** " ++ format_duration d
    | none => caption
  let caption :=
    match audio_lang with
    | some lang => if lang = "" then caption else caption ++ "\n🔊 **Audio:** " ++ lang
    | none => caption
  caption ++ "\n🎞 **Quality:** HD" ++ "\n\n#cartoon #episode"

/-! ### The YouTube download pipeline (src/bot.py lines 763-924)

One playlist entry, as the loop body observes it: its id and title, the
probed duration, whether `download_youtube_video` returned a result whose
file exists (`fetchOk`), and whether `app.send_video` succeeded
(`publishOk`). -/

structure SourceVideo where
  vid : Nat
  title : String
  duration : Nat
  fetchOk : Bool
  publishOk : Bool
deriving DecidableEq

/-- The loop-local state of one download run: the `success_count` /
`failed_count` counters, the running `current_ep` counter, the
`cartoons[...]['last_episode'/'last_season']` record, and the ordered
list of `(video id, caption)` pairs sent to the destination channel. -/
structure DownloadState where
  success_count : Nat
  failed_count : Nat
  current_ep : Nat
  last_episode : Nat
  last_season : Nat
  published : List (Nat × String)
deriving DecidableEq

/-- One iteration of the download loop (src/bot.py lines 848-899):
on fetch success a caption is built from `current_ep`; on publish success
the counters, the series record and the channel are updated; `current_ep`
is incremented whenever the fetch succeeded, regardless of the publish
outcome; any failure increments `failed_count` and the loop moves on. -/
def download_step (series_name : String) (season : Nat)
    (s : DownloadState) (v : SourceVideo) : DownloadState :=
  if v.fetchOk then
    let caption :=
      create_caption (pad2 s.current_ep) v.title series_name
        (format_duration v.duration) none season
    if v.publishOk then
      { success_count := s.success_count + 1
        failed_count := s.failed_count
        current_ep := s.current_ep + 1
        last_episode := s.current_ep
        last_season := season
        published := s.published ++ [(v.vid, caption)] }
    else
      { s with failed_count := s.failed_count + 1, current_ep := s.current_ep + 1 }
  else
    { s with failed_count := s.failed_count + 1 }

/-- The download loop (src/bot.py lines 827-899): before each item the
stop flag is polled (`current_operation.get(user_id) == "stopped"`);
`stop idx` is the value observed when the item at absolute index `idx`
would start.  A set flag breaks out of the loop mid-run. -/
def download_loop (series_name : String) (season : Nat) (stop : Nat → Bool) :
    List SourceVideo → Nat → DownloadState → DownloadState
  | [], _, s => s
  | v :: rest, idx, s =>
    if stop idx then s
    else download_loop series_name season stop rest (idx + 1)
      (download_step series_name season s v)

/-- The episode-range slice (src/bot.py lines 796-800):
`videos[ep_start-1:ep_end]` when an end is given, `videos[ep_start-1:]`
when only a start > 1 is given.  Callers supply `ep_start ≥ 1` (Python
would interpret `ep_start = 0` via negative indexing). -/
def slice_videos (videos : List SourceVideo) (ep_start : Nat) (ep_end : Option Nat) :
    List SourceVideo :=
  match ep_end with
  | some e => (videos.drop (ep_start - 1)).take (e - (ep_start - 1))
  | none => if ep_start > 1 then videos.drop (ep_start - 1) else videos

/-- One whole download run (the `awaiting_yt_url` branch of
`message_handler`): slice the playlist, then iterate with
`success_count = failed_count = 0` and `current_ep = ep_start`.
`last_ep0`/`last_season0` are the series record's values before the run.
There is no deduplication state of any kind in this path. -/
def run_download (series_name : String) (season ep_start : Nat) (ep_end : Option Nat)
    (stop : Nat → Bool) (last_ep0 last_season0 : Nat)
    (videos : List SourceVideo) : DownloadState :=
  download_loop series_name season stop (slice_videos videos ep_start ep_end) 0
    { success_count := 0, failed_count := 0, current_ep := ep_start
      last_episode := last_ep0, last_season := last_season0, published := [] }

/-- The item ids a run published, in order. -/
def pub_ids (s : DownloadState) : List Nat := s.published.map Prod.fst

/-! ### The forward session (src/bot.py lines 939-1113) -/

/-- Outcome of `app.send_video` in the forward path: success, a
`FloodWait` (caught separately: the handler sleeps and neither counter
changes), or any other exception (`failed_count` incremented). -/
inductive PublishOutcome
  | ok
  | floodWait
  | error
deriving DecidableEq

/-- One forwarded message from the source channel, as the handler
observes it: `forward_from_message_id`, whether it carries a video or a
video-typed document, the resolved title (`message.caption or file_name
or "Video"`), the duration (absent for documents), and the publish
outcome. -/
structure ForwardMessage where
  msg_id : Nat
  is_video : Bool
  is_video_document : Bool
  title : String
  duration : Option Nat
  publish_result : PublishOutcome
deriving DecidableEq

/-- The state of one forward session (the `forward_sessions[user_id]`
dict plus the series record and the destination channel's message list):
`processed_ids` models the Python set. -/
structure ForwardSession where
  processed_ids : List Nat
  success_count : Nat
  failed_count : Nat
  last_episode : Nat
  last_season : Nat
  published : List (Nat × String)
deriving DecidableEq

/-- A fresh forward session (src/bot.py lines 968-979): empty processed
set, zero counters; `last_episode`/`last_season` carry the series
record's current values. -/
def init_forward_session (last_ep0 last_season0 : Nat) : ForwardSession :=
  { processed_ids := [], success_count := 0, failed_count := 0
    last_episode := last_ep0, last_season := last_season0, published := [] }

/-- Handling of one forwarded message (src/bot.py lines 1008-1113):
if `msg_id` is already in `processed_ids`, return silently; otherwise the
id is added to `processed_ids` *before* the media check and the publish
attempt.  A non-video message increments `failed_count`.  On publish
success the caption built from `extract_episode_info`/`clean_title` is
sent, `success_count` is incremented and the series record updated; on
`FloodWait` the handler sleeps and changes nothing; on any other error
`failed_count` is incremented.  Nothing ever removes an id from
`processed_ids`. -/
def forward_step (series_name : String) (audio_lang : Option String)
    (sess : ForwardSession) (m : ForwardMessage) : ForwardSession :=
  if m.msg_id ∈ sess.processed_ids then sess
  else
    let sess2 : ForwardSession :=
      { sess with processed_ids := m.msg_id :: sess.processed_ids }
    if m.is_video || m.is_video_document then
      let epInfo := extract_episode_info m.title
      let caption :=
        forward_caption epInfo.2.2 epInfo.2.1 series_name (clean_title m.title)
          m.duration audio_lang
      match m.publish_result with
      | PublishOutcome.ok =>
        { sess2 with
            success_count := sess2.success_count + 1
            published := sess2.published ++ [(m.msg_id, caption)]
            last_episode := epInfo.2.2
            last_season := epInfo.2.1 }
      | PublishOutcome.floodWait => sess2
      | PublishOutcome.error => { sess2 with failed_count := sess2.failed_count + 1 }
    else { sess2 with failed_count := sess2.failed_count + 1 }

/-- A whole forward session over a stream of forwarded messages. -/
def run_forward (series_name : String) (audio_lang : Option String)
    (msgs : List ForwardMessage) (sess : ForwardSession) : ForwardSession :=
  msgs.foldl (forward_step series_name audio_lang) sess

/-! ### The `current_operation` registry (src/bot.py lines 50-54, 441-448) -/

/-- A `current_operation[user_id]` dict for the download flow. -/
structure Operation where
  step : String
  cartoon : String
  season : Nat
  episode_start : Nat
deriving DecidableEq

/-- The `yt_season_new_` branch of `callback_handler` (src/bot.py lines
441-448): `current_operation[user_id] = {...}` — an unconditional
assignment into the registry, with no check for an existing active
operation. -/
def handle_yt_season_new (ops : Nat → Option Operation) (user_id : Nat)
    (cartoon_name : String) : Nat → Option Operation :=
  fun v =>
    if v = user_id then
      some { step := "awaiting_yt_url", cartoon := cartoon_name
             season := 1, episode_start := 1 }
    else ops v

/-! ### Splitting a caption into its lines (for the caption-format claims) -/

/-- Split a character list at every newline, `str.split("\n")` style:
`splitNl "a\nb".data = [['a'], ['b']]`, and the empty list yields one
empty line. -/
def splitNl : List Char → List (List Char)
  | [] => [[]]
  | c :: rest =>
    let r := splitNl rest
    if c = '\n' then [] :: r else (c :: r.headI) :: r.tail

/-- Join lines with single newlines (the inverse of `splitNl` on
newline-free lines). -/
def joinNl : List (List Char) → List Char
  | [] => []
  | [l] => l
  | l :: ls => l ++ '\n' :: joinNl ls

/-! ### Concrete inputs used by the counterexamples and witnesses -/

def dots60 : String := String.mk (List.replicate 60 '.')

def dots50 : String := String.mk (List.replicate 50 '.')

def op_A : Operation :=
  { step := "awaiting_yt_url", cartoon := "A", season := 1, episode_start := 1 }

/-- A registry in which owner 7 already has an active operation. -/
def reg_busy : Nat → Option Operation := fun v => if v = 7 then some op_A else none

/-- An empty registry. -/
def reg_empty : Nat → Option Operation := fun _ => none

def c1_video : SourceVideo :=
  { vid := 0, title := "EP 1", duration := 300, fetchOk := true, publishOk := true }

/-- First download run over the one-item playlist. -/
def c1_run1 : DownloadState :=
  run_download "S" 1 1 none (fun _ => false) 0 1 [c1_video]

/-- Second download run over the same playlist, starting from the series
record the first run left behind. -/
def c1_run2 : DownloadState :=
  run_download "S" 1 1 none (fun _ => false) c1_run1.last_episode c1_run1.last_season
    [c1_video]

def c1w_msg : ForwardMessage :=
  { msg_id := 3, is_video := true, is_video_document := false, title := "EP 9"
    duration := some 60, publish_result := PublishOutcome.ok }

def c1w_state : ForwardSession :=
  forward_step "S" none (init_forward_session 0 1) c1w_msg

/-- Two items: the first downloads but fails to publish, the second
succeeds. -/
def c4_videos : List SourceVideo :=
  [{ vid := 1, title := "A", duration := 60, fetchOk := true, publishOk := false },
   { vid := 2, title := "B", duration := 60, fetchOk := true, publishOk := true }]

def c4_run : DownloadState :=
  run_download "S" 1 1 none (fun _ => false) 0 1 c4_videos

/-- A 20-item playlist whose items all download and publish. -/
def demo20 : List SourceVideo :=
  (List.range 20).map fun i =>
    { vid := i + 1, title := "T", duration := 60, fetchOk := true, publishOk := true }

def c4_range_run : DownloadState :=
  run_download "S" 2 5 (some 8) (fun _ => false) 0 1 demo20

/-- A forwarded video whose publish raises a generic error. -/
def c5_msg : ForwardMessage :=
  { msg_id := 5, is_video := true, is_video_document := false, title := "EP 2"
    duration := some 100, publish_result := PublishOutcome.error }

def c5_state : ForwardSession :=
  forward_step "S" none (init_forward_session 0 1) c5_msg

def c5w_msg : ForwardMessage :=
  { msg_id := 4, is_video := true, is_video_document := false, title := "EP 8"
    duration := some 60, publish_result := PublishOutcome.floodWait }

/-- The stop flag becomes visible from item index 2 on. -/
def c9_stop : Nat → Bool := fun i => decide (2 ≤ i)

def c9_videos : List SourceVideo :=
  [{ vid := 1, title := "T", duration := 60, fetchOk := true, publishOk := true },
   { vid := 2, title := "T", duration := 60, fetchOk := true, publishOk := true },
   { vid := 3, title := "T", duration := 60, fetchOk := true, publishOk := true },
   { vid := 4, title := "T", duration := 60, fetchOk := true, publishOk := true }]

def c9_init : DownloadState :=
  { success_count := 0, failed_count := 0, current_ep := 1
    last_episode := 0, last_season := 1, published := [] }

/-- A forwarded video-typed document: it has no duration. -/
def c10_doc_msg : ForwardMessage :=
  { msg_id := 9, is_video := false, is_video_document := true, title := "EP 3 X"
    duration := none, publish_result := PublishOutcome.ok }

def c10_run : ForwardSession :=
  run_forward "S" none [c10_doc_msg] (init_forward_session 0 1)

/-! ### Helper lemmas -/

/-- The `\b(\d+)\b` fallback search returns exactly the first word-bounded
digit run of the title. -/
theorem bare_search_eq_head (l : List Char) :
    ∀ prev, bare_search prev l = (bare_all prev l).head? := by
  induction l with
  | nil => intro prev; rfl
  | cons c rest ih =>
    intro prev
    by_cases h : (!isWordOpt prev && isDigitCh c && boundaryAfter rest) = true
    · simp [bare_search, bare_all, h]
    · simp [bare_search, bare_all, h, ih]

/-- With the stop flag never set, the download loop visits every item. -/
theorem download_loop_nostop (series : String) (season : Nat)
    (l : List SourceVideo) : ∀ (idx : Nat) (s : DownloadState),
    download_loop series season (fun _ => false) l idx s =
      l.foldl (download_step series season) s := by
  induction l with
  | nil => intro idx s; rfl
  | cons v rest ih =>
    intro idx s
    simp only [download_loop, List.foldl]
    exact ih (idx + 1) (download_step series season s v)

/-- Every visited item increments exactly one of the two counters. -/
theorem download_step_counts (series : String) (season : Nat)
    (s : DownloadState) (v : SourceVideo) :
    (download_step series season s v).success_count
      + (download_step series season s v).failed_count
      = s.success_count + s.failed_count + 1 := by
  unfold download_step
  by_cases hf : v.fetchOk <;> by_cases hp : v.publishOk <;> simp [hf, hp] <;> omega

/-- Counter sum over a full fold of the loop body. -/
theorem download_fold_counts (series : String) (season : Nat)
    (l : List SourceVideo) : ∀ s : DownloadState,
    (l.foldl (download_step series season) s).success_count
      + (l.foldl (download_step series season) s).failed_count
      = s.success_count + s.failed_count + l.length := by
  induction l with
  | nil => intro s; simp
  | cons v rest ih =>
    intro s
    simp only [List.foldl, List.length_cons]
    rw [ih (download_step series season s v)]
    have := download_step_counts series season s v
    omega

/-- `current_ep` advances exactly on fetch success, independent of the
publish outcome. -/
theorem download_step_current_ep (series : String) (season : Nat)
    (s : DownloadState) (v : SourceVideo) :
    (download_step series season s v).current_ep
      = s.current_ep + (if v.fetchOk then 1 else 0) := by
  unfold download_step
  by_cases hf : v.fetchOk <;> by_cases hp : v.publishOk <;> simp [hf, hp]

/-- `current_ep` over a full fold: seeded value plus the number of
fetch-successful items. -/
theorem download_fold_current_ep (series : String) (season : Nat)
    (l : List SourceVideo) : ∀ s : DownloadState,
    (l.foldl (download_step series season) s).current_ep
      = s.current_ep + (l.filter (fun v => v.fetchOk)).length := by
  induction l with
  | nil => intro s; simp
  | cons v rest ih =>
    intro s
    simp only [List.foldl]
    rw [ih (download_step series season s v), download_step_current_ep]
    by_cases hf : v.fetchOk
    · simp [hf, List.filter]
      omega
    · simp [hf, List.filter]

/-- If the stop flag is false at the `k` indices before `idx + k` and set
at `idx + k` (when in range), the loop from `idx` processes exactly the
first `k` items. -/
theorem download_loop_stop_aux (series : String) (season : Nat)
    (stop : Nat → Bool) (l : List SourceVideo) :
    ∀ (k idx : Nat) (s : DownloadState),
    (∀ j, j < k → stop (idx + j) = false) →
    (k < l.length → stop (idx + k) = true) →
    download_loop series season stop l idx s =
      (l.take k).foldl (download_step series season) s := by
  induction l with
  | nil => intro k idx s _ _; simp [download_loop]
  | cons v rest ih =>
    intro k idx s hb ha
    cases k with
    | zero =>
      have hs : stop idx = true := by
        have := ha (by simp)
        simpa using this
      simp [download_loop, hs]
    | succ j =>
      have h0 : stop idx = false := by
        have := hb 0 (Nat.succ_pos j)
        simpa using this
      simp only [download_loop, h0, Bool.false_eq_true, if_false, List.take_succ_cons,
        List.foldl]
      refine ih j (idx + 1) (download_step series season s v) ?_ ?_
      · intro i hi
        have := hb (i + 1) (Nat.succ_lt_succ hi)
        have e : idx + (i + 1) = idx + 1 + i := by omega
        rwa [e] at this
      · intro hlen
        have := ha (by simpa using Nat.succ_lt_succ hlen)
        have e : idx + (j + 1) = idx + 1 + j := by omega
        rwa [e] at this

/-- Duplicate forwarded messages are skipped silently: the whole session
state is unchanged. -/
theorem forward_step_skip (series : String) (audio : Option String)
    (sess : ForwardSession) (m : ForwardMessage)
    (h : m.msg_id ∈ sess.processed_ids) :
    forward_step series audio sess m = sess := by
  unfold forward_step
  rw [if_pos h]

/-- The invariant carried through a forward session: everything published
is marked processed, and no id is published twice. -/
def FwdInv (sess : ForwardSession) : Prop :=
  (∀ id, id ∈ sess.published.map Prod.fst → id ∈ sess.processed_ids) ∧
  (sess.published.map Prod.fst).Nodup

theorem forward_step_inv (series : String) (audio : Option String)
    (sess : ForwardSession) (m : ForwardMessage) (h : FwdInv sess) :
    FwdInv (forward_step series audio sess m) := by
  by_cases hmem : m.msg_id ∈ sess.processed_ids
  · rwa [forward_step_skip series audio sess m hmem]
  · unfold forward_step
    rw [if_neg hmem]
    by_cases hv : (m.is_video || m.is_video_document) = true
    · simp only [hv, if_true]
      cases hr : m.publish_result with
      | ok =>
        constructor
        · intro id hid
          simp only [List.map_append, List.map_cons, List.map_nil,
            List.mem_append, List.mem_singleton] at hid
          rcases hid with hid | hid
          · exact List.mem_cons_of_mem _ (h.1 id hid)
          · simp [hid]
        · simp only [List.map_append, List.map_cons, List.map_nil]
          refine List.Nodup.append h.2 (List.nodup_singleton _) ?_
          intro a ha hb
          simp only [List.mem_singleton] at hb
          subst hb
          exact hmem (h.1 _ ha)
      | floodWait =>
        exact ⟨fun id hid => List.mem_cons_of_mem _ (h.1 id hid), h.2⟩
      | error =>
        exact ⟨fun id hid => List.mem_cons_of_mem _ (h.1 id hid), h.2⟩
    · rw [Bool.not_eq_true] at hv
      simp only [hv, Bool.false_eq_true, if_false]
      exact ⟨fun id hid => List.mem_cons_of_mem _ (h.1 id hid), h.2⟩

theorem run_forward_inv (series : String) (audio : Option String)
    (msgs : List ForwardMessage) : ∀ (sess : ForwardSession), FwdInv sess →
    FwdInv (run_forward series audio msgs sess) := by
  induction msgs with
  | nil => intro sess h; exact h
  | cons m rest ih =>
    intro sess h
    exact ih (forward_step series audio sess m) (forward_step_inv series audio sess m h)

/-- On first sight of a message id, the id is recorded in
`processed_ids` before any publish attempt, whatever the outcome. -/
theorem forward_step_marks (series : String) (audio : Option String)
    (sess : ForwardSession) (m : ForwardMessage)
    (h : m.msg_id ∉ sess.processed_ids) :
    (forward_step series audio sess m).processed_ids
      = m.msg_id :: sess.processed_ids := by
  unfold forward_step
  rw [if_neg h]
  by_cases hv : (m.is_video || m.is_video_document) = true
  · simp only [hv, if_true]
    cases m.publish_result <;> rfl
  · rw [Bool.not_eq_true] at hv
    simp only [hv, Bool.false_eq_true, if_false]

/-- Markers are never removed by a forward step. -/
theorem forward_step_mono (series : String) (audio : Option String)
    (sess : ForwardSession) (m : ForwardMessage) :
    sess.processed_ids ⊆ (forward_step series audio sess m).processed_ids := by
  by_cases hmem : m.msg_id ∈ sess.processed_ids
  · rw [forward_step_skip series audio sess m hmem]
    exact fun x hx => hx
  · rw [forward_step_marks series audio sess m hmem]
    exact fun x hx => List.mem_cons_of_mem _ hx

/-- `String.append` at the character level. -/
theorem str_data_append (a b : String) : (a ++ b).data = a.data ++ b.data := by
  cases a
  cases b
  rfl

/-- `splitNl` never returns the empty list of lines. -/
theorem splitNl_ne_nil (l : List Char) : splitNl l ≠ [] := by
  cases l with
  | nil => simp [splitNl]
  | cons c rest =>
    simp only [splitNl]
    by_cases h : c = '\n' <;> simp [h]

/-- Splitting at a newline after a newline-free prefix. -/
theorem splitNl_append_newline (a b : List Char) (h : '\n' ∉ a) :
    splitNl (a ++ '\n' :: b) = a :: splitNl b := by
  induction a with
  | nil => simp [splitNl]
  | cons c a ih =>
    have hc : ¬(c = '\n') := fun e => h (by simp [e])
    have ha : '\n' ∉ a := fun m => h (List.mem_cons_of_mem _ m)
    simp only [List.cons_append, splitNl, hc, if_false, List.append_eq, ih ha]
    rfl

/-- A newline-free string is one line. -/
theorem splitNl_no_newline (a : List Char) (h : '\n' ∉ a) :
    splitNl a = [a] := by
  induction a with
  | nil => rfl
  | cons c a ih =>
    have hc : ¬(c = '\n') := fun e => h (by simp [e])
    have ha : '\n' ∉ a := fun m => h (List.mem_cons_of_mem _ m)
    simp [splitNl, ih ha, hc]

/-- `splitNl` recovers the lines joined by `joinNl`. -/
theorem splitNl_joinNl : ∀ ls : List (List Char), (∀ l ∈ ls, '\n' ∉ l) → ls ≠ [] →
    splitNl (joinNl ls) = ls := by
  intro ls
  induction ls with
  | nil => intro _ h; exact absurd rfl h
  | cons l ls ih =>
    intro hno _
    cases ls with
    | nil => exact splitNl_no_newline l (hno l (by simp))
    | cons l2 ls2 =>
      show splitNl (l ++ '\n' :: joinNl (l2 :: ls2)) = l :: l2 :: ls2
      rw [splitNl_append_newline _ _ (hno l (by simp))]
      rw [ih (fun x hx => hno x (by simp [hx])) (by simp)]

theorem noNl_append {a b : List Char} (ha : '\n' ∉ a) (hb : '\n' ∉ b) :
    '\n' ∉ a ++ b :=
  fun h => (List.mem_append.mp h).elim ha hb

/-- The newline-prefixed caption segments, split off their newline. -/
theorem data_nl_series :
    ("\n📺 **Series:** " : String).data = '\n' :: ("📺 **Series:** " : String).data := rfl

theorem data_nl_title :
    ("\n📝 **Title:** " : String).data = '\n' :: ("📝 **Title:** " : String).data := rfl

theorem data_nl_duration :
    ("\n⏱ **Duration:** " : String).data = '\n' :: ("⏱ **Duration:** " : String).data := rfl

theorem data_nl_audio :
    ("\n🔊 **Audio:** " : String).data = '\n' :: ("🔊 **Audio:** " : String).data := rfl

theorem data_nl_quality :
    ("\n🎞 **Quality:** HD" : String).data = '\n' :: ("🎞 **Quality:** HD" : String).data := rfl

theorem data_nl_tag :
    ("\n\n#cartoon #episode" : String).data
      = '\n' :: '\n' :: ("#cartoon #episode" : String).data := rfl

/-- The fixed caption segments contain no newline. -/
theorem noNl_lit_season : '\n' ∉ ("🎬 **Season " : String).data := by decide

theorem noNl_lit_ep_mid : '\n' ∉ (" Episode " : String).data := by decide

theorem noNl_lit_stars : '\n' ∉ ("**" : String).data := by decide

theorem noNl_lit_episode : '\n' ∉ ("🎬 **Episode " : String).data := by decide

theorem noNl_lit_series : '\n' ∉ ("📺 **Series:** " : String).data := by decide

theorem noNl_lit_title : '\n' ∉ ("📝 **Title:** " : String).data := by decide

theorem noNl_lit_duration : '\n' ∉ ("⏱ **Duration:** " : String).data := by decide

theorem noNl_lit_audio : '\n' ∉ ("🔊 **Audio:** " : String).data := by decide

theorem noNl_lit_quality : '\n' ∉ ("🎞 **Quality:** HD" : String).data := by decide

theorem noNl_lit_tag : '\n' ∉ ("#cartoon #episode" : String).data := by decide

theorem noNl_nil : '\n' ∉ ([] : List Char) := List.not_mem_nil _

/-! ### Claims -/

/-- C1, counterexample: the download pipeline has no `ProcessedMarker` of
any kind, so running it twice over the same one-item playlist publishes
item 0 in both runs — twice in total, not "at most once", and nothing is
skipped in the second run. -/
theorem c1_counterexample :
    (pub_ids c1_run1).count 0 + (pub_ids c1_run2).count 0 = 2 := by decide

/-- C1, amended: only the forward path deduplicates, through the
in-memory per-session `processed_ids` set keyed by message id alone.
Within a single forward session each message id is published at most
once, and a duplicate is skipped silently, with the whole session state
(counters included) unchanged.  No marker is persisted across runs, and
the download path never deduplicates. -/
theorem c1_amended_thm :
    (∀ (series : String) (audio : Option String) (msgs : List ForwardMessage)
      (last_ep0 last_season0 id : Nat),
      ((run_forward series audio msgs
          (init_forward_session last_ep0 last_season0)).published.map Prod.fst).count id ≤ 1)
    ∧ (∀ (series : String) (audio : Option String) (sess : ForwardSession)
        (m : ForwardMessage), m.msg_id ∈ sess.processed_ids →
        forward_step series audio sess m = sess) := by
  constructor
  · intro series audio msgs last_ep0 last_season0 id
    have hinv : FwdInv (init_forward_session last_ep0 last_season0) := by
      constructor
      · intro i hi
        simp [init_forward_session] at hi
      · simp [init_forward_session]
    have h2 := (run_forward_inv series audio msgs _ hinv).2
    exact List.nodup_iff_count_le_one.mp h2 id
  · exact forward_step_skip

theorem c1_amended_witness :
    ((run_forward "S" none [c1w_msg, c1w_msg]
        (init_forward_session 0 1)).published.map Prod.fst).count 3 ≤ 1
    ∧ forward_step "S" none c1w_state c1w_msg = c1w_state :=
  ⟨c1_amended_thm.1 "S" none [c1w_msg, c1w_msg] 0 1 3,
   c1_amended_thm.2 "S" none c1w_state c1w_msg (by decide)⟩

/-- C2, counterexample: owner 7 already has an active operation, yet the
start handler succeeds and *replaces* it with a fresh one — there is no
`AlreadyRunning` rejection anywhere, and the previous operation's state
is lost rather than left unchanged. -/
theorem c2_counterexample :
    reg_busy 7 = some op_A
    ∧ handle_yt_season_new reg_busy 7 "B" 7
        = some { step := "awaiting_yt_url", cartoon := "B", season := 1, episode_start := 1 }
    ∧ ({ step := "awaiting_yt_url", cartoon := "B", season := 1, episode_start := 1 }
        : Operation) ≠ op_A := by
  refine ⟨rfl, rfl, by decide⟩

/-- C2, amended: starting a download operation unconditionally overwrites
the owner's `current_operation` entry, active or not, and leaves every
other owner's entry alone; no rejection path exists. -/
theorem c2_amended_thm :
    ∀ (ops : Nat → Option Operation) (u : Nat) (c : String),
      handle_yt_season_new ops u c u
        = some { step := "awaiting_yt_url", cartoon := c, season := 1, episode_start := 1 }
      ∧ ∀ v, v ≠ u → handle_yt_season_new ops u c v = ops v := by
  intro ops u c
  constructor
  · simp [handle_yt_season_new]
  · intro v hv
    simp [handle_yt_season_new, hv]

theorem c2_amended_witness :
    handle_yt_season_new reg_empty 7 "B" 7
      = some { step := "awaiting_yt_url", cartoon := "B", season := 1, episode_start := 1 }
    ∧ handle_yt_season_new reg_empty 7 "B" 3 = reg_empty 3 :=
  ⟨(c2_amended_thm reg_empty 7 "B").1, (c2_amended_thm reg_empty 7 "B").2 3 (by decide)⟩

/-- C3, counterexample: for "S01E04 Title" the label component returned
by `extract_episode_info` is the combined string "S01E04", not the
episode number "04" alone (the season component is 1, as claimed). -/
theorem c3_counterexample :
    (extract_episode_info "S01E04 Title").1 = "S01E04"
    ∧ (extract_episode_info "S01E04 Title").1 ≠ "04"
    ∧ (extract_episode_info "S01E04 Title").2.1 = 1 := by decide

/-- C3, amended: when the first matching rule is a Season+Episode
combined form with groups `(s, e)`, the extractor returns the combined
label `fmtSE s e` = "SssEee" together with season `s` and numeric episode
`e`; the zero-padded episode number alone only appears when the caption
renders `e`.  Concretely, "S01E04 Title" yields ("S01E04", 1, 4). -/
theorem c3_amended_thm :
    (∀ (t : String) (s e : Nat), combined_first (upperList t) = some (s, e) →
      extract_episode_info t = (fmtSE s e, s, e))
    ∧ extract_episode_info "S01E04 Title" = ("S01E04", 1, 4) := by
  constructor
  · intro t s e h
    unfold combined_first at h
    show (match runCascade (upperList t) with
          | some r => r
          | none =>
            match bare_search none (upperList t) with
            | some num =>
              if 1 ≤ num ∧ num ≤ 999 then (pad2 num, 1, num) else ("01", 1, 1)
            | none => ("01", 1, 1)) = (fmtSE s e, s, e)
    unfold runCascade
    cases h1 : searchP maSE (upperList t) with
    | some r =>
      obtain ⟨a, b⟩ := r
      rw [h1] at h
      simp only [Option.some.injEq, Prod.mk.injEq] at h
      obtain ⟨rfl, rfl⟩ := h
      simp
    | none =>
      rw [h1] at h
      cases h2 : searchP maSeasonEp (upperList t) with
      | some r =>
        obtain ⟨a, b⟩ := r
        rw [h2] at h
        simp only [Option.some.injEq, Prod.mk.injEq] at h
        obtain ⟨rfl, rfl⟩ := h
        simp
      | none =>
        rw [h2] at h
        cases h3 : searchP maX (upperList t) with
        | some r =>
          obtain ⟨a, b⟩ := r
          rw [h3] at h
          simp only [Option.some.injEq, Prod.mk.injEq] at h
          obtain ⟨rfl, rfl⟩ := h
          simp
        | none =>
          rw [h3] at h
          exact absurd h (by simp)
  · decide

theorem c3_amended_witness :
    combined_first (upperList "S01E04 Title") = some (1, 4)
    ∧ extract_episode_info "S01E04 Title" = (fmtSE 1 4, 1, 4) :=
  ⟨by decide, c3_amended_thm.1 "S01E04 Title" 1 4 (by decide)⟩

/-- C4, counterexample: the episode counter advances on every
*successfully fetched* item, including one whose publish fails.  With
item 1 failing to publish and item 2 succeeding, the final counter is 3,
not `episodeStart + processedCount = 2`, and the one published caption is
numbered 2, not 1. -/
theorem c4_counterexample :
    c4_run.success_count = 1
    ∧ c4_run.current_ep = 3
    ∧ c4_run.current_ep ≠ 1 + c4_run.success_count
    ∧ c4_run.published
        = [(2, create_caption (pad2 2) "B" "S" (format_duration 60) none 1)] := by
  decide

/-- C4, amended: the slice `[episodeStart-1 : episodeEnd]` is taken
before iteration, but the running counter seeded at `episodeStart`
increments once per successfully *fetched* item (publish failures
included), not per published item.  When every fetch and publish
succeeds the two notions agree: episodeStart=5, episodeEnd=8 over 20
items yields exactly the 4 items 5-8, published with captions numbered
05,06,07,08. -/
theorem c4_amended_thm :
    (∀ (series : String) (season ep_start : Nat) (ep_end : Option Nat)
      (last_ep0 last_season0 : Nat) (videos : List SourceVideo),
      (run_download series season ep_start ep_end (fun _ => false)
          last_ep0 last_season0 videos).current_ep
        = ep_start + ((slice_videos videos ep_start ep_end).filter
            (fun v => v.fetchOk)).length)
    ∧ slice_videos demo20 5 (some 8)
        = [{ vid := 5, title := "T", duration := 60, fetchOk := true, publishOk := true },
           { vid := 6, title := "T", duration := 60, fetchOk := true, publishOk := true },
           { vid := 7, title := "T", duration := 60, fetchOk := true, publishOk := true },
           { vid := 8, title := "T", duration := 60, fetchOk := true, publishOk := true }]
    ∧ c4_range_run.published
        = [(5, create_caption (pad2 5) "T" "S" (format_duration 60) none 2),
           (6, create_caption (pad2 6) "T" "S" (format_duration 60) none 2),
           (7, create_caption (pad2 7) "T" "S" (format_duration 60) none 2),
           (8, create_caption (pad2 8) "T" "S" (format_duration 60) none 2)] := by
  refine ⟨?_, by decide, by decide⟩
  intro series season ep_start ep_end last_ep0 last_season0 videos
  unfold run_download
  rw [download_loop_nostop, download_fold_current_ep]

/-- C5, counterexample: the forward session adds the message id to
`processed_ids` *before* attempting the publish; after a failed publish
the marker exists (`processed_ids = [5]`, `success_count = 0`, nothing
published), and re-forwarding the same message is silently skipped
instead of being reprocessed. -/
theorem c5_counterexample :
    c5_state.processed_ids = [5]
    ∧ c5_state.success_count = 0
    ∧ c5_state.published = []
    ∧ forward_step "S" none c5_state c5_msg = c5_state := by decide

/-- C5, amended: the session's marker for a message id is created when
the id is first seen — before the media check and the publish attempt,
whatever the outcome — and markers are never removed, so an item whose
publish fails is not eligible for reprocessing within the session. -/
theorem c5_amended_thm :
    ∀ (series : String) (audio : Option String) (sess : ForwardSession)
      (m : ForwardMessage),
      (m.msg_id ∉ sess.processed_ids →
        (forward_step series audio sess m).processed_ids
          = m.msg_id :: sess.processed_ids)
      ∧ sess.processed_ids ⊆ (forward_step series audio sess m).processed_ids := by
  intro series audio sess m
  exact ⟨forward_step_marks series audio sess m, forward_step_mono series audio sess m⟩

theorem c5_amended_witness :
    (forward_step "S" none (init_forward_session 0 1) c5w_msg).processed_ids = [4]
    ∧ (init_forward_session 0 1).processed_ids
        ⊆ (forward_step "S" none (init_forward_session 0 1) c5w_msg).processed_ids :=
  ⟨(c5_amended_thm "S" none (init_forward_session 0 1) c5w_msg).1 (by decide),
   (c5_amended_thm "S" none (init_forward_session 0 1) c5w_msg).2⟩

/-- C6, counterexample: "MOVIE 2023 PART 7" matches no pattern rule and
contains the in-range bare integer 7, but the fallback only examines the
*first* bare integer, 2023; being out of range, the ultimate default
("01", 1, 1) is returned instead of ("07", 1, 7). -/
theorem c6_counterexample :
    runCascade (upperList "MOVIE 2023 PART 7") = none
    ∧ (7 : Nat) ∈ bare_all none (upperList "MOVIE 2023 PART 7")
    ∧ (1 ≤ 7 ∧ 7 ≤ 999)
    ∧ extract_episode_info "MOVIE 2023 PART 7" = ("01", 1, 1)
    ∧ extract_episode_info "MOVIE 2023 PART 7" ≠ ("07", 1, 7) := by decide

/-- C6, amended: when no pattern rule matches, the fallback considers
only the first bare integer of the title: if it lies in [1, 999] it is
returned zero-padded with season 1; otherwise — even when a later bare
integer is in range — the ultimate default ("01", 1, 1) is returned. -/
theorem c6_amended_thm :
    ∀ t : String, runCascade (upperList t) = none →
      extract_episode_info t
        = (match (bare_all none (upperList t)).head? with
           | some num =>
             if 1 ≤ num ∧ num ≤ 999 then (pad2 num, 1, num) else ("01", 1, 1)
           | none => ("01", 1, 1)) := by
  intro t h
  show (match runCascade (upperList t) with
        | some r => r
        | none =>
          match bare_search none (upperList t) with
          | some num =>
            if 1 ≤ num ∧ num ≤ 999 then (pad2 num, 1, num) else ("01", 1, 1)
          | none => ("01", 1, 1)) = _
  rw [h, bare_search_eq_head (upperList t) none]

theorem c6_amended_witness :
    runCascade (upperList "SHOW 7") = none
    ∧ extract_episode_info "SHOW 7" = ("07", 1, 7) :=
  ⟨by decide, (c6_amended_thm "SHOW 7" (by decide)).trans (by decide)⟩

/-- C7, counterexample: a 60-character title that cleans to the empty
string falls back to `title[:50]` — the first 50 characters, not the
untruncated original. -/
theorem c7_counterexample :
    clean_title dots60 = ""
    ∧ caption_title_text dots60 ≠ dots60
    ∧ caption_title_text dots60 = dots50 := by decide

/-- C7, amended: when the cleaned title is empty or shorter than 3
characters, `create_caption` falls back to the first 50 characters of the
original raw title (which equals the raw title only when it is at most 50
characters long). -/
theorem c7_amended_thm :
    ∀ t : String, (clean_title t = "" ∨ (clean_title t).length < 3) →
      caption_title_text t = String.mk (t.data.take 50) := by
  intro t h
  show (if clean_title t = "" ∨ (clean_title t).length < 3
        then String.mk (t.data.take 50) else clean_title t)
      = String.mk (t.data.take 50)
  rw [if_pos h]

theorem c7_amended_witness :
    (clean_title dots60 = "" ∨ (clean_title dots60).length < 3)
    ∧ caption_title_text dots60 = String.mk (dots60.data.take 50) :=
  ⟨by decide, c7_amended_thm dots60 (by decide)⟩

/-- C8: for every playlist and every combination of per-item fetch or
publish outcomes, a download run with the stop flag never set visits
every sliced item (it equals the full fold — no failure aborts it), and
`success_count + failed_count` equals the number of items visited.  The
download path never skips (it has no deduplication), so the claim's
`skippedCount` is identically zero here. -/
theorem c8_run_counts :
    ∀ (series : String) (season ep_start : Nat) (ep_end : Option Nat)
      (last_ep0 last_season0 : Nat) (videos : List SourceVideo),
      (run_download series season ep_start ep_end (fun _ => false)
          last_ep0 last_season0 videos).success_count
        + (run_download series season ep_start ep_end (fun _ => false)
            last_ep0 last_season0 videos).failed_count
        = (slice_videos videos ep_start ep_end).length
      ∧ run_download series season ep_start ep_end (fun _ => false)
          last_ep0 last_season0 videos
        = (slice_videos videos ep_start ep_end).foldl (download_step series season)
            { success_count := 0, failed_count := 0, current_ep := ep_start
              last_episode := last_ep0, last_season := last_season0, published := [] } := by
  intro series season ep_start ep_end last_ep0 last_season0 videos
  constructor
  · unfold run_download
    rw [download_loop_nostop, download_fold_counts]
    simp
  · unfold run_download
    rw [download_loop_nostop]

/-- C9: the stop flag is polled only at the top of the per-item loop.
If it is unset for the first `k` item starts and set at the `k`-th (when
in range), the run equals the fold over exactly the first `k` items: no
later item is started, no in-flight item is interrupted, and the final
counts reflect only the items fully visited before the flag was
observed. -/
theorem c9_stop_flag :
    ∀ (series : String) (season : Nat) (stop : Nat → Bool)
      (videos : List SourceVideo) (s : DownloadState) (k : Nat),
      (∀ j, j < k → stop j = false) →
      (k < videos.length → stop k = true) →
      download_loop series season stop videos 0 s
        = (videos.take k).foldl (download_step series season) s := by
  intro series season stop videos s k hb ha
  refine download_loop_stop_aux series season stop videos k 0 s ?_ ?_
  · intro j hj
    simpa using hb j hj
  · intro h
    simpa using ha h

theorem c9_witness :
    (∀ j, j < 2 → c9_stop j = false)
    ∧ (2 < c9_videos.length → c9_stop 2 = true)
    ∧ download_loop "S" 1 c9_stop c9_videos 0 c9_init
        = (c9_videos.take 2).foldl (download_step "S" 1) c9_init :=
  ⟨by decide, by decide,
   c9_stop_flag "S" 1 c9_stop c9_videos c9_init 2 (by decide) (by decide)⟩

/-- `create_caption` splits into its lines: header (with season only when
`season > 1`), series, title, duration (always), optional audio, quality,
blank, hashtag — in this fixed order. -/
theorem caption_lines_create
    (ep t series dur : String) (audio : Option String) (season : Nat)
    (h1 : '\n' ∉ ep.data) (h2 : '\n' ∉ series.data)
    (h3 : '\n' ∉ (caption_title_text t).data) (h4 : '\n' ∉ dur.data)
    (h5 : '\n' ∉ (toString season).data)
    (h6 : ∀ l, audio = some l → '\n' ∉ l.data) :
    splitNl (create_caption ep t series dur audio season).data
      = [(if season > 1 then
            "🎬 **Season " ++ toString season ++ " Episode " ++ ep ++ "**"
          else "🎬 **Episode " ++ ep ++ "**").data,
         ("📺 **Series:** " ++ series).data,
         ("📝 **Title:** " ++ caption_title_text t).data,
         ("⏱ **Duration:** " ++ dur).data]
        ++ (audio.elim [] fun l => if l = "" then [] else [("🔊 **Audio:** " ++ l).data])
        ++ [("🎞 **Quality:** HD" : String).data, [],
            ("#cartoon #episode" : String).data] := by
  have hHead : '\n' ∉ (if season > 1 then
      "🎬 **Season " ++ toString season ++ " Episode " ++ ep ++ "**"
    else "🎬 **Episode " ++ ep ++ "**").data := by
    by_cases hs : season > 1
    · rw [if_pos hs]
      simp only [str_data_append]
      exact noNl_append (noNl_append (noNl_append (noNl_append noNl_lit_season h5)
        noNl_lit_ep_mid) h1) noNl_lit_stars
    · rw [if_neg hs]
      simp only [str_data_append]
      exact noNl_append (noNl_append noNl_lit_episode h1) noNl_lit_stars
  have hSeries : '\n' ∉ ("📺 **Series:** " ++ series).data := by
    rw [str_data_append]
    exact noNl_append noNl_lit_series h2
  have hTitle : '\n' ∉ ("📝 **Title:** " ++ caption_title_text t).data := by
    rw [str_data_append]
    exact noNl_append noNl_lit_title h3
  have hDur : '\n' ∉ ("⏱ **Duration:** " ++ dur).data := by
    rw [str_data_append]
    exact noNl_append noNl_lit_duration h4
  cases audio with
  | none =>
    have hno : ∀ l ∈ [(if season > 1 then
          "🎬 **Season " ++ toString season ++ " Episode " ++ ep ++ "**"
        else "🎬 **Episode " ++ ep ++ "**").data,
        ("📺 **Series:** " ++ series).data,
        ("📝 **Title:** " ++ caption_title_text t).data,
        ("⏱ **Duration:** " ++ dur).data,
        ("🎞 **Quality:** HD" : String).data, [],
        ("#cartoon #episode" : String).data], '\n' ∉ l := by
      simp only [List.forall_mem_cons]
      exact ⟨hHead, hSeries, hTitle, hDur, noNl_lit_quality, noNl_nil, noNl_lit_tag, fun x hx => absurd hx (List.not_mem_nil x)⟩
    have hL : (create_caption ep t series dur none season).data
        = joinNl [(if season > 1 then
              "🎬 **Season " ++ toString season ++ " Episode " ++ ep ++ "**"
            else "🎬 **Episode " ++ ep ++ "**").data,
            ("📺 **Series:** " ++ series).data,
            ("📝 **Title:** " ++ caption_title_text t).data,
            ("⏱ **Duration:** " ++ dur).data,
            ("🎞 **Quality:** HD" : String).data, [],
            ("#cartoon #episode" : String).data] := by
      simp [create_caption, joinNl, str_data_append, data_nl_series, data_nl_title,
        data_nl_duration, data_nl_quality, data_nl_tag, List.append_assoc]
    rw [hL, splitNl_joinNl _ hno (by simp)]
    rfl
  | some lang =>
    by_cases hlang : lang = ""
    · subst hlang
      have hno : ∀ l ∈ [(if season > 1 then
            "🎬 **Season " ++ toString season ++ " Episode " ++ ep ++ "**"
          else "🎬 **Episode " ++ ep ++ "**").data,
          ("📺 **Series:** " ++ series).data,
          ("📝 **Title:** " ++ caption_title_text t).data,
          ("⏱ **Duration:** " ++ dur).data,
          ("🎞 **Quality:** HD" : String).data, [],
          ("#cartoon #episode" : String).data], '\n' ∉ l := by
        simp only [List.forall_mem_cons]
        exact ⟨hHead, hSeries, hTitle, hDur, noNl_lit_quality, noNl_nil, noNl_lit_tag, fun x hx => absurd hx (List.not_mem_nil x)⟩
      have hL : (create_caption ep t series dur (some "") season).data
          = joinNl [(if season > 1 then
                "🎬 **Season " ++ toString season ++ " Episode " ++ ep ++ "**"
              else "🎬 **Episode " ++ ep ++ "**").data,
              ("📺 **Series:** " ++ series).data,
              ("📝 **Title:** " ++ caption_title_text t).data,
              ("⏱ **Duration:** " ++ dur).data,
              ("🎞 **Quality:** HD" : String).data, [],
              ("#cartoon #episode" : String).data] := by
        simp [create_caption, joinNl, str_data_append, data_nl_series, data_nl_title,
          data_nl_duration, data_nl_quality, data_nl_tag, List.append_assoc]
      rw [hL, splitNl_joinNl _ hno (by simp)]
      rfl
    · have hAudio : '\n' ∉ ("🔊 **Audio:** " ++ lang).data := by
        rw [str_data_append]
        exact noNl_append noNl_lit_audio (h6 lang rfl)
      have hno : ∀ l ∈ [(if season > 1 then
            "🎬 **Season " ++ toString season ++ " Episode " ++ ep ++ "**"
          else "🎬 **Episode " ++ ep ++ "**").data,
          ("📺 **Series:** " ++ series).data,
          ("📝 **Title:** " ++ caption_title_text t).data,
          ("⏱ **Duration:** " ++ dur).data,
          ("🔊 **Audio:** " ++ lang).data,
          ("🎞 **Quality:** HD" : String).data, [],
          ("#cartoon #episode" : String).data], '\n' ∉ l := by
        simp only [List.forall_mem_cons]
        exact ⟨hHead, hSeries, hTitle, hDur, hAudio, noNl_lit_quality, noNl_nil, noNl_lit_tag, fun x hx => absurd hx (List.not_mem_nil x)⟩
      have hL : (create_caption ep t series dur (some lang) season).data
          = joinNl [(if season > 1 then
                "🎬 **Season " ++ toString season ++ " Episode " ++ ep ++ "**"
              else "🎬 **Episode " ++ ep ++ "**").data,
              ("📺 **Series:** " ++ series).data,
              ("📝 **Title:** " ++ caption_title_text t).data,
              ("⏱ **Duration:** " ++ dur).data,
              ("🔊 **Audio:** " ++ lang).data,
              ("🎞 **Quality:** HD" : String).data, [],
              ("#cartoon #episode" : String).data] := by
        simp [create_caption, joinNl, str_data_append, data_nl_series, data_nl_title,
          data_nl_audio, data_nl_duration, data_nl_quality, data_nl_tag,
          List.append_assoc, hlang]
      rw [hL, splitNl_joinNl _ hno (by simp)]
      simp only [Option.elim, if_neg hlang, List.cons_append, List.nil_append]

/-- The forward-path caption with no duration available: the duration
line is absent; the remaining lines keep the fixed order. -/
theorem caption_lines_forward_none
    (ep season : Nat) (series ct : String) (audio : Option String)
    (h1 : '\n' ∉ (pad2 ep).data) (h2 : '\n' ∉ series.data) (h3 : '\n' ∉ ct.data)
    (h5 : '\n' ∉ (toString season).data)
    (h6 : ∀ l, audio = some l → '\n' ∉ l.data) :
    splitNl (forward_caption ep season series ct none audio).data
      = [(if season > 1 then
            "🎬 **Season " ++ toString season ++ " Episode " ++ pad2 ep ++ "**"
          else "🎬 **Episode " ++ pad2 ep ++ "**").data,
         ("📺 **Series:** " ++ series).data,
         ("📝 **Title:** " ++ ct).data]
        ++ (audio.elim [] fun l => if l = "" then [] else [("🔊 **Audio:** " ++ l).data])
        ++ [("🎞 **Quality:** HD" : String).data, [],
            ("#cartoon #episode" : String).data] := by
  have hHead : '\n' ∉ (if season > 1 then
      "🎬 **Season " ++ toString season ++ " Episode " ++ pad2 ep ++ "**"
    else "🎬 **Episode " ++ pad2 ep ++ "**").data := by
    by_cases hs : season > 1
    · rw [if_pos hs]
      simp only [str_data_append]
      exact noNl_append (noNl_append (noNl_append (noNl_append noNl_lit_season h5)
        noNl_lit_ep_mid) h1) noNl_lit_stars
    · rw [if_neg hs]
      simp only [str_data_append]
      exact noNl_append (noNl_append noNl_lit_episode h1) noNl_lit_stars
  have hSeries : '\n' ∉ ("📺 **Series:** " ++ series).data := by
    rw [str_data_append]
    exact noNl_append noNl_lit_series h2
  have hTitle : '\n' ∉ ("📝 **Title:** " ++ ct).data := by
    rw [str_data_append]
    exact noNl_append noNl_lit_title h3
  cases audio with
  | none =>
    have hno : ∀ l ∈ [(if season > 1 then
          "🎬 **Season " ++ toString season ++ " Episode " ++ pad2 ep ++ "**"
        else "🎬 **Episode " ++ pad2 ep ++ "**").data,
        ("📺 **Series:** " ++ series).data,
        ("📝 **Title:** " ++ ct).data,
        ("🎞 **Quality:** HD" : String).data, [],
        ("#cartoon #episode" : String).data], '\n' ∉ l := by
      simp only [List.forall_mem_cons]
      exact ⟨hHead, hSeries, hTitle, noNl_lit_quality, noNl_nil, noNl_lit_tag, fun x hx => absurd hx (List.not_mem_nil x)⟩
    have hL : (forward_caption ep season series ct none none).data
        = joinNl [(if season > 1 then
              "🎬 **Season " ++ toString season ++ " Episode " ++ pad2 ep ++ "**"
            else "🎬 **Episode " ++ pad2 ep ++ "**").data,
            ("📺 **Series:** " ++ series).data,
            ("📝 **Title:** " ++ ct).data,
            ("🎞 **Quality:** HD" : String).data, [],
            ("#cartoon #episode" : String).data] := by
      simp [forward_caption, joinNl, str_data_append, data_nl_series, data_nl_title,
        data_nl_quality, data_nl_tag, List.append_assoc]
    rw [hL, splitNl_joinNl _ hno (by simp)]
    rfl
  | some lang =>
    by_cases hlang : lang = ""
    · subst hlang
      have hno : ∀ l ∈ [(if season > 1 then
            "🎬 **Season " ++ toString season ++ " Episode " ++ pad2 ep ++ "**"
          else "🎬 **Episode " ++ pad2 ep ++ "**").data,
          ("📺 **Series:** " ++ series).data,
          ("📝 **Title:** " ++ ct).data,
          ("🎞 **Quality:** HD" : String).data, [],
          ("#cartoon #episode" : String).data], '\n' ∉ l := by
        simp only [List.forall_mem_cons]
        exact ⟨hHead, hSeries, hTitle, noNl_lit_quality, noNl_nil, noNl_lit_tag, fun x hx => absurd hx (List.not_mem_nil x)⟩
      have hL : (forward_caption ep season series ct none (some "")).data
          = joinNl [(if season > 1 then
                "🎬 **Season " ++ toString season ++ " Episode " ++ pad2 ep ++ "**"
              else "🎬 **Episode " ++ pad2 ep ++ "**").data,
              ("📺 **Series:** " ++ series).data,
              ("📝 **Title:** " ++ ct).data,
              ("🎞 **Quality:** HD" : String).data, [],
              ("#cartoon #episode" : String).data] := by
        simp [forward_caption, joinNl, str_data_append, data_nl_series, data_nl_title,
          data_nl_quality, data_nl_tag, List.append_assoc]
      rw [hL, splitNl_joinNl _ hno (by simp)]
      rfl
    · have hAudio : '\n' ∉ ("🔊 **Audio:** " ++ lang).data := by
        rw [str_data_append]
        exact noNl_append noNl_lit_audio (h6 lang rfl)
      have hno : ∀ l ∈ [(if season > 1 then
            "🎬 **Season " ++ toString season ++ " Episode " ++ pad2 ep ++ "**"
          else "🎬 **Episode " ++ pad2 ep ++ "**").data,
          ("📺 **Series:** " ++ series).data,
          ("📝 **Title:** " ++ ct).data,
          ("🔊 **Audio:** " ++ lang).data,
          ("🎞 **Quality:** HD" : String).data, [],
          ("#cartoon #episode" : String).data], '\n' ∉ l := by
        simp only [List.forall_mem_cons]
        exact ⟨hHead, hSeries, hTitle, hAudio, noNl_lit_quality, noNl_nil, noNl_lit_tag, fun x hx => absurd hx (List.not_mem_nil x)⟩
      have hL : (forward_caption ep season series ct none (some lang)).data
          = joinNl [(if season > 1 then
                "🎬 **Season " ++ toString season ++ " Episode " ++ pad2 ep ++ "**"
              else "🎬 **Episode " ++ pad2 ep ++ "**").data,
              ("📺 **Series:** " ++ series).data,
              ("📝 **Title:** " ++ ct).data,
              ("🔊 **Audio:** " ++ lang).data,
              ("🎞 **Quality:** HD" : String).data, [],
              ("#cartoon #episode" : String).data] := by
        simp [forward_caption, joinNl, str_data_append, data_nl_series, data_nl_title,
          data_nl_audio, data_nl_quality, data_nl_tag, List.append_assoc, hlang]
      rw [hL, splitNl_joinNl _ hno (by simp)]
      simp only [Option.elim, if_neg hlang, List.cons_append, List.nil_append]

/-- C10, counterexample: a forwarded video document with no duration is
published with a caption that contains no duration line at all (no '⏱'
character anywhere), contradicting "every caption the pipeline publishes"
containing a duration line. -/
theorem c10_counterexample :
    c10_run.published.map Prod.fst = [9]
    ∧ ∀ p ∈ c10_run.published, '⏱' ∉ p.2.data := by decide

/-- C10, amended: `create_caption` (used by the download path) always
yields the fixed line order — episode header (with season only when
season > 1), series, title, duration, optional audio, quality marker —
but the forward path's inline caption contains the duration line only
when a duration is known: with no duration the line is absent, and the
other lines keep their fixed order. -/
theorem c10_amended_thm :
    (∀ (ep t series dur : String) (audio : Option String) (season : Nat),
      '\n' ∉ ep.data → '\n' ∉ series.data → '\n' ∉ (caption_title_text t).data →
      '\n' ∉ dur.data → '\n' ∉ (toString season).data →
      (∀ l, audio = some l → '\n' ∉ l.data) →
      splitNl (create_caption ep t series dur audio season).data
        = [(if season > 1 then
              "🎬 **Season " ++ toString season ++ " Episode " ++ ep ++ "**"
            else "🎬 **Episode " ++ ep ++ "**").data,
           ("📺 **Series:** " ++ series).data,
           ("📝 **Title:** " ++ caption_title_text t).data,
           ("⏱ **Duration:** " ++ dur).data]
          ++ (audio.elim [] fun l => if l = "" then [] else [("🔊 **Audio:** " ++ l).data])
          ++ [("🎞 **Quality:** HD" : String).data, [],
              ("#cartoon #episode" : String).data])
    ∧ (∀ (ep season : Nat) (series ct : String) (audio : Option String),
      '\n' ∉ (pad2 ep).data → '\n' ∉ series.data → '\n' ∉ ct.data →
      '\n' ∉ (toString season).data →
      (∀ l, audio = some l → '\n' ∉ l.data) →
      splitNl (forward_caption ep season series ct none audio).data
        = [(if season > 1 then
              "🎬 **Season " ++ toString season ++ " Episode " ++ pad2 ep ++ "**"
            else "🎬 **Episode " ++ pad2 ep ++ "**").data,
           ("📺 **Series:** " ++ series).data,
           ("📝 **Title:** " ++ ct).data]
          ++ (audio.elim [] fun l => if l = "" then [] else [("🔊 **Audio:** " ++ l).data])
          ++ [("🎞 **Quality:** HD" : String).data, [],
              ("#cartoon #episode" : String).data]) := by
  constructor
  · intro ep t series dur audio season h1 h2 h3 h4 h5 h6
    exact caption_lines_create ep t series dur audio season h1 h2 h3 h4 h5 h6
  · intro ep season series ct audio h1 h2 h3 h5 h6
    exact caption_lines_forward_none ep season series ct audio h1 h2 h3 h5 h6

theorem c10_amended_witness :
    splitNl (create_caption "04" "T" "N" "22 min" (some "Hindi") 2).data
      = [("🎬 **Season " ++ toString 2 ++ " Episode " ++ "04" ++ "**").data,
         ("📺 **Series:** " ++ "N").data,
         ("📝 **Title:** " ++ caption_title_text "T").data,
         ("⏱ **Duration:** " ++ "22 min").data,
         ("🔊 **Audio:** " ++ "Hindi").data,
         ("🎞 **Quality:** HD" : String).data, [],
         ("#cartoon #episode" : String).data] :=
  c10_amended_thm.1 "04" "T" "N" "22 min" (some "Hindi") 2 (by decide) (by decide)
    (by decide) (by decide) (by decide)
    (fun l e => by injection e with e; subst e; decide)

end Cartoon
